import Mathlib

/-!
Verification development for the `humanode-network/frontier` balance-accounting
pallets (`frame/evm-balances`, `frame/evm-system`).

The Rust source is shallowly embedded: the generic unsigned `Balance` type is
modelled as `Nat` together with an explicit upper bound `maxBalance` (the
`Balance::max_value()` of the runtime configuration); `saturating_add` becomes
`satAdd`, `checked_add`/`checked_sub` become `Option`-valued `checkedAdd`/
`checkedSub` (Rust unsigned `saturating_sub` is exactly `Nat` subtraction).
Storage maps become functions `Nat → Option _` (the key type `AccountId` is
modelled as `Nat`); fallible operations return `Except`; every stateful
operation returns its result together with the post-state.  Event emission
carries no logic in the source, so balance-pallet events are elided, except
that dust hand-off to the configured `DustRemoval` sink (observable through
`DustCleaner::drop`) is recorded in a `dustLog`, and the evm-system lifecycle
callbacks (`on_new_account` / `on_killed_account`) are recorded in an `events`
list.
-/

/-- Saturating addition capped at the balance type's maximum value. -/
def satAdd (maxB a b : Nat) : Nat := min (a + b) maxB

/-- Rust `checked_add` for an unsigned type with maximum value `maxB`. -/
def checkedAdd (maxB a b : Nat) : Option Nat :=
  if a + b ≤ maxB then some (a + b) else none

/-- Rust `checked_sub` for an unsigned type. -/
def checkedSub (a b : Nat) : Option Nat :=
  if b ≤ a then some (a - b) else none

/-- Withdrawal reasons, simplified (`Reasons` in `evm-balances/src/lib.rs`). -/
inductive Reasons
  | fee
  | misc
  | all
deriving DecidableEq, Repr

/-- Balance record of one account (`AccountData` in `evm-balances/src/lib.rs`). -/
structure AccountData where
  free : Nat
  reserved : Nat
  misc_frozen : Nat
  fee_frozen : Nat
deriving DecidableEq, Repr

/-- The all-zero record used by `unwrap_or_default`. -/
def AccountData.default : AccountData := ⟨0, 0, 0, 0⟩

/-- The amount that `free` may not drop below for the given reasons. -/
def AccountData.frozen (a : AccountData) (r : Reasons) : Nat :=
  match r with
  | Reasons.all => max a.misc_frozen a.fee_frozen
  | Reasons.misc => a.misc_frozen
  | Reasons.fee => a.fee_frozen

/-- Total balance: `free.saturating_add(reserved)`. -/
def AccountData.total (a : AccountData) (maxB : Nat) : Nat :=
  satAdd maxB a.free a.reserved

/-- How much the balance can be reduced for the given reasons
(`free.saturating_sub(frozen(reasons))`). -/
def AccountData.usable (a : AccountData) (r : Reasons) : Nat :=
  a.free - a.frozen r

/-- Runtime configuration: the balance type's maximum value and the
`ExistentialDeposit` constant. -/
structure Config where
  maxBalance : Nat
  existentialDeposit : Nat
deriving DecidableEq, Repr

/-- Errors surfaced by the balances pallet (`Error<T>` plus the
`ArithmeticError` variants it converts into `DispatchError`). -/
inductive DispatchError
  | liquidityRestrictions
  | insufficientBalance
  | existentialDeposit
  | keepAlive
  | deadAccount
  | overflow
  | underflow
deriving DecidableEq, Repr

/-- Liveness policy of an operation (`ExistenceRequirement`). -/
inductive ExistenceRequirement
  | keepAlive
  | allowDeath
deriving DecidableEq, Repr

/-- Token denoting funds created without an equal and opposite accounting
(`imbalances::PositiveImbalance`). -/
structure PositiveImbalance where
  amount : Nat
deriving DecidableEq, Repr

/-- Token denoting funds destroyed without an equal and opposite accounting
(`imbalances::NegativeImbalance`). -/
structure NegativeImbalance where
  amount : Nat
deriving DecidableEq, Repr

/-- Zero positive imbalance. -/
def PositiveImbalance.zero : PositiveImbalance := ⟨0⟩

/-- Zero negative imbalance. -/
def NegativeImbalance.zero : NegativeImbalance := ⟨0⟩

/-- Inspect the held amount without consuming the token. -/
def PositiveImbalance.peek (p : PositiveImbalance) : Nat := p.amount

/-- Inspect the held amount without consuming the token. -/
def NegativeImbalance.peek (n : NegativeImbalance) : Nat := n.amount

/-- `Imbalance::split` for positive tokens: `(self.0.min(amount), self.0 - first)`. -/
def PositiveImbalance.split (p : PositiveImbalance) (amount : Nat) :
    PositiveImbalance × PositiveImbalance :=
  let first := min p.amount amount
  (⟨first⟩, ⟨p.amount - first⟩)

/-- `Imbalance::merge` for positive tokens: saturating sum. -/
def PositiveImbalance.merge (maxB : Nat) (p q : PositiveImbalance) :
    PositiveImbalance :=
  ⟨satAdd maxB p.amount q.amount⟩

/-- `Imbalance::split` for negative tokens: `(self.0.min(amount), self.0 - first)`. -/
def NegativeImbalance.split (n : NegativeImbalance) (amount : Nat) :
    NegativeImbalance × NegativeImbalance :=
  let first := min n.amount amount
  (⟨first⟩, ⟨n.amount - first⟩)

/-- `Imbalance::merge` for negative tokens: saturating sum. -/
def NegativeImbalance.merge (maxB : Nat) (n m : NegativeImbalance) :
    NegativeImbalance :=
  ⟨satAdd maxB n.amount m.amount⟩

/-- Storage of the balances pallet: the `AccountStore` map, the
`TotalIssuance` counter, and the log of dust handed to `T::DustRemoval`
(pairs of account and dust amount, appended by `DustCleaner::drop`). -/
structure BalState where
  accountStore : Nat → Option AccountData
  totalIssuance : Nat
  dustLog : List (Nat × Nat)

/-- Point update of a storage map. -/
def setKey {α : Type} (m : Nat → Option α) (k : Nat) (v : Option α) :
    Nat → Option α :=
  fun x => if x = k then v else m x

/-- The stored record of `who`, or the zero default (`ValueQuery` semantics). -/
def loaded_account (s : BalState) (who : Nat) : AccountData :=
  (s.accountStore who).getD AccountData.default

/-- Whether the record is absent, i.e. the `is_new` flag of the mutation
protocol. -/
def is_new_account (s : BalState) (who : Nat) : Bool :=
  (s.accountStore who).isNone

/-- `Pallet::free_balance`. -/
def free_balance (s : BalState) (who : Nat) : Nat :=
  (loaded_account s who).free

/-- `Pallet::total_balance`. -/
def total_balance (c : Config) (s : BalState) (who : Nat) : Nat :=
  (loaded_account s who).total c.maxBalance

/-- `Currency::issue`: increase `TotalIssuance` by `amount`, saturating at the
maximum balance, and return the negative imbalance actually added. -/
def issue (c : Config) (s : BalState) (amount : Nat) :
    NegativeImbalance × BalState :=
  if amount = 0 then (NegativeImbalance.zero, s)
  else
    match checkedAdd c.maxBalance s.totalIssuance amount with
    | some x => (⟨amount⟩, { s with totalIssuance := x })
    | none =>
        (⟨c.maxBalance - s.totalIssuance⟩, { s with totalIssuance := c.maxBalance })

/-- `Currency::burn`: decrease `TotalIssuance` by `amount`, saturating at
zero, and return the positive imbalance actually removed. -/
def burn (c : Config) (s : BalState) (amount : Nat) :
    PositiveImbalance × BalState :=
  if amount = 0 then (PositiveImbalance.zero, s)
  else
    match checkedSub s.totalIssuance amount with
    | some x => (⟨amount⟩, { s with totalIssuance := x })
    | none => (⟨s.totalIssuance⟩, { s with totalIssuance := 0 })

/-- Outcome type of `withdraw_consequence` (`WithdrawConsequence`). -/
inductive WithdrawConsequence
  | success
  | reducedToZero (newTotal : Nat)
  | noFunds
  | underflow
  | frozen
deriving DecidableEq, Repr

/-- `Pallet::withdraw_consequence`: read-only prediction of a withdrawal's
outcome, given the current `TotalIssuance` and the account's record. -/
def withdraw_consequence (c : Config) (s : BalState) (_who : Nat)
    (amount : Nat) (account : AccountData) : WithdrawConsequence :=
  if amount = 0 then WithdrawConsequence.success
  else
    match checkedSub s.totalIssuance amount with
    | none => WithdrawConsequence.underflow
    | some _ =>
      match checkedSub (account.total c.maxBalance) amount with
      | none => WithdrawConsequence.noFunds
      | some newTotalBalance =>
        let outcome :=
          if newTotalBalance < c.existentialDeposit then
            WithdrawConsequence.reducedToZero newTotalBalance
          else WithdrawConsequence.success
        match checkedSub account.free amount with
        | none => WithdrawConsequence.noFunds
        | some newFreeBalance =>
          if newFreeBalance < account.frozen Reasons.all then
            WithdrawConsequence.frozen
          else outcome

/-- `DustCleaner<T>`: the deferred dust handle produced by
`try_mutate_account_with_dust`, holding the dusted account and the dust
imbalance until it is dropped. -/
abbrev DustCleaner := Option (Nat × NegativeImbalance)

/-- `Pallet::post_mutation`: decide whether the mutated record is persisted,
removed silently (total zero), or removed with its total extracted as dust
(total strictly below the existential deposit). -/
def post_mutation (c : Config) (new : AccountData) :
    Option AccountData × Option NegativeImbalance :=
  let total := new.total c.maxBalance
  if total < c.existentialDeposit then
    if total = 0 then (none, none) else (none, some ⟨total⟩)
  else (some new, none)

/-- `DustCleaner::drop`: hand the dust over to the configured `DustRemoval`
sink (recorded in `dustLog`, together with the `DustLost` event payload). -/
def drop_dust_cleaner (s : BalState) (dc : DustCleaner) : BalState :=
  match dc with
  | none => s
  | some (who, dust) => { s with dustLog := s.dustLog ++ [(who, dust.peek)] }

/-- `Pallet::try_mutate_account_with_dust`: load the record (or the zero
default), run the closure on the working copy, and on success write back the
result of `post_mutation`, returning the dust as a deferred `DustCleaner`.
The closure additionally threads the whole pallet state, because the source
closure may itself access storage (the transfer closure nests a second
account mutation); on a closure error nothing is written back for `who`
(`StorageMap::try_mutate_exists` semantics). -/
def try_mutate_account_with_dust {E R : Type} (c : Config) (s : BalState)
    (who : Nat)
    (f : AccountData → Bool → BalState → Except E (R × AccountData) × BalState) :
    Except E (R × DustCleaner) × BalState :=
  match f (loaded_account s who) (is_new_account s who) s with
  | (Except.error e, s1) => (Except.error e, s1)
  | (Except.ok (r, account1), s1) =>
      (Except.ok (r, (post_mutation c account1).2.map (fun d => (who, d))),
       { s1 with
          accountStore := setKey s1.accountStore who (post_mutation c account1).1 })

/-- `Pallet::try_mutate_account`: same protocol, dropping the dust handle
immediately after the mutation commits. -/
def try_mutate_account {E R : Type} (c : Config) (s : BalState) (who : Nat)
    (f : AccountData → Bool → BalState → Except E (R × AccountData) × BalState) :
    Except E R × BalState :=
  match try_mutate_account_with_dust c s who f with
  | (Except.error e, s1) => (Except.error e, s1)
  | (Except.ok (r, dc), s1) => (Except.ok r, drop_dust_cleaner s1 dc)

/-- The existential-deposit invariant: every stored record has total balance
at least the existential deposit. -/
def ed_invariant (c : Config) (s : BalState) : Prop :=
  ∀ a d, s.accountStore a = some d → c.existentialDeposit ≤ d.total c.maxBalance

/-- `Currency::ensure_can_withdraw`: after a withdrawal of `amount` leaving
`new_balance` free, the free balance must not be below the reason-scoped
frozen floor of the stored record (the `WithdrawReasons` bitflag argument is
modelled by the `Reasons` it converts into). -/
def ensure_can_withdraw (s : BalState) (who : Nat) (amount : Nat)
    (reasons : Reasons) (new_balance : Nat) : Except DispatchError Unit :=
  if amount = 0 then Except.ok ()
  else if (loaded_account s who).frozen reasons ≤ new_balance then Except.ok ()
  else Except.error DispatchError.liquidityRestrictions

/-- The inner closure of `Currency::transfer`, mutating the source account
while holding the destination's working copy `toAccount`; returns the updated
destination copy as its result value and the updated source record for write
back.  `WithdrawReasons::TRANSFER` converts to `Reasons::Misc`. -/
def transfer_from_closure (c : Config) (toAccount : AccountData) (value : Nat)
    (er : ExistenceRequirement) (source : Nat)
    (fromAccount : AccountData) (_is_new : Bool) (s : BalState) :
    Except DispatchError (AccountData × AccountData) × BalState :=
  match checkedSub fromAccount.free value with
  | none => (Except.error DispatchError.insufficientBalance, s)
  | some newFromFree =>
    match checkedAdd c.maxBalance toAccount.free value with
    | none => (Except.error DispatchError.overflow, s)
    | some newToFree =>
      let fromAccount1 := { fromAccount with free := newFromFree }
      let toAccount1 := { toAccount with free := newToFree }
      if toAccount1.total c.maxBalance < c.existentialDeposit then
        (Except.error DispatchError.existentialDeposit, s)
      else
        match ensure_can_withdraw s source value Reasons.misc fromAccount1.free with
        | Except.error _ => (Except.error DispatchError.liquidityRestrictions, s)
        | Except.ok _ =>
          if er = ExistenceRequirement.allowDeath
              ∨ c.existentialDeposit ≤ fromAccount1.total c.maxBalance then
            (Except.ok (toAccount1, fromAccount1), s)
          else
            (Except.error DispatchError.keepAlive, s)

/-- The outer closure of `Currency::transfer`, run inside the destination's
mutation: it nests the whole source mutation and returns the source's dust
handle as its result value and the updated destination copy for write back. -/
def transfer_to_closure (c : Config) (source : Nat) (value : Nat)
    (er : ExistenceRequirement)
    (toAccount : AccountData) (_is_new : Bool) (s : BalState) :
    Except DispatchError (DustCleaner × AccountData) × BalState :=
  match try_mutate_account_with_dust c s source
      (transfer_from_closure c toAccount value er source) with
  | (Except.error e, s1) => (Except.error e, s1)
  | (Except.ok (toAccount1, dcSource), s1) => (Except.ok (dcSource, toAccount1), s1)

/-- `Currency::transfer`: no-op for zero value or self transfer; otherwise
the nested double mutation, after which both dust handles are dropped
(source's first, then destination's, matching the drop order of the Rust
tuple). -/
def transfer (c : Config) (s : BalState) (source dest : Nat) (value : Nat)
    (er : ExistenceRequirement) : Except DispatchError Unit × BalState :=
  if value = 0 ∨ source = dest then (Except.ok (), s)
  else
    match try_mutate_account_with_dust c s dest
        (transfer_to_closure c source value er) with
    | (Except.error e, s1) => (Except.error e, s1)
    | (Except.ok (dcSource, dcDest), s1) =>
        (Except.ok (), drop_dust_cleaner (drop_dust_cleaner s1 dcSource) dcDest)

/-- The slash closure for a given `attempt` (0: slash the full value, 1: cap
the slash so that at least the existential deposit of total balance remains);
takes the slash first from free, then from reserved balance, and returns the
negative imbalance together with the unslashed remainder. -/
def slash_closure (c : Config) (value attempt : Nat)
    (account : AccountData) (_is_new : Bool) (s : BalState) :
    Except DispatchError ((NegativeImbalance × Nat) × AccountData) × BalState :=
  let best_value :=
    if attempt = 0 then value
    else min value ((account.free + account.reserved) - c.existentialDeposit)
  let free_slash := min account.free best_value
  let account1 := { account with free := account.free - free_slash }
  let remaining_slash := best_value - free_slash
  if remaining_slash ≠ 0 then
    let reserved_slash := min account1.reserved remaining_slash
    let account2 := { account1 with reserved := account1.reserved - reserved_slash }
    (Except.ok ((⟨free_slash + reserved_slash⟩,
                 value - free_slash - reserved_slash), account2), s)
  else
    (Except.ok ((⟨free_slash⟩, value - free_slash), account1), s)

/-- `Currency::slash`: returns `(NegativeImbalance(slashed), remainder)`;
no-op for zero value or an account with zero total balance; otherwise up to
two mutation attempts (the second capping the slash at the existential
deposit), falling back to `(zero, value)` defensively. -/
def slash (c : Config) (s : BalState) (who value : Nat) :
    (NegativeImbalance × Nat) × BalState :=
  if value = 0 then ((NegativeImbalance.zero, 0), s)
  else if total_balance c s who = 0 then ((NegativeImbalance.zero, value), s)
  else
    match try_mutate_account c s who (slash_closure c value 0) with
    | (Except.ok (imb, notSlashed), s1) => ((imb, notSlashed), s1)
    | (Except.error _, s1) =>
      match try_mutate_account c s1 who (slash_closure c value 1) with
      | (Except.ok (imb, notSlashed), s2) => ((imb, notSlashed), s2)
      | (Except.error _, s2) => ((NegativeImbalance.zero, value), s2)

/-- The closure of `Currency::withdraw`: checked subtraction from free, the
keep-alive check (fail only when the account would newly drop below the
existential deposit), then the frozen-floor check. -/
def withdraw_closure (c : Config) (who value : Nat) (reasons : Reasons)
    (liveness : ExistenceRequirement)
    (account : AccountData) (_is_new : Bool) (s : BalState) :
    Except DispatchError (NegativeImbalance × AccountData) × BalState :=
  match checkedSub account.free value with
  | none => (Except.error DispatchError.insufficientBalance, s)
  | some new_free_account =>
    if liveness = ExistenceRequirement.allowDeath
        ∨ ¬(new_free_account + account.reserved < c.existentialDeposit
            ∧ c.existentialDeposit ≤ account.free + account.reserved) then
      match ensure_can_withdraw s who value reasons new_free_account with
      | Except.error e => (Except.error e, s)
      | Except.ok _ =>
          (Except.ok (⟨value⟩, { account with free := new_free_account }), s)
    else (Except.error DispatchError.keepAlive, s)

/-- `Currency::withdraw`: no-op for zero value, otherwise the mutation
protocol applied to the withdraw closure. -/
def withdraw (c : Config) (s : BalState) (who value : Nat) (reasons : Reasons)
    (liveness : ExistenceRequirement) :
    Except DispatchError NegativeImbalance × BalState :=
  if value = 0 then (Except.ok NegativeImbalance.zero, s)
  else try_mutate_account c s who (withdraw_closure c who value reasons liveness)

-- The evm-system pallet: account lifecycle and the `StoredMap` capability.

/-- Account record of the evm-system pallet (`AccountInfo`), generic over the
associated account data `D` (the nonce type is modelled as `Nat`, the
`RefCount` as a saturating 32-bit counter). -/
structure AccountInfo (D : Type) where
  nonce : Nat
  sufficients : Nat
  data : D
deriving DecidableEq, Repr

/-- Lifecycle callback invocations of the evm-system pallet (each entry
records one `on_new_account`/`NewAccount` or `on_killed_account`/
`KilledAccount` notification). -/
inductive SysEvent
  | newAccount (who : Nat)
  | killedAccount (who : Nat)
deriving DecidableEq, Repr

/-- Storage of the evm-system pallet: the `Account` map and the log of
lifecycle callbacks fired. -/
structure SysState (D : Type) where
  account : Nat → Option (AccountInfo D)
  events : List SysEvent

/-- The default record (`Default` impl): zero nonce, zero sufficients,
default data. -/
def AccountInfo.default {D : Type} (dflt : D) : AccountInfo D := ⟨0, 0, dflt⟩

/-- `Pallet::account_exists`: `Account::contains_key`. -/
def account_exists {D : Type} (s : SysState D) (who : Nat) : Bool :=
  (s.account who).isSome

/-- `Account::get` with `ValueQuery` semantics: the stored record or the
default. -/
def account_get {D : Type} (dflt : D) (s : SysState D) (who : Nat) :
    AccountInfo D :=
  (s.account who).getD (AccountInfo.default dflt)

/-- `Account::mutate` for a `ValueQuery` map: read the record or the default,
apply `f`, write the result back. -/
def account_mutate {D : Type} (dflt : D) (s : SysState D) (who : Nat)
    (f : AccountInfo D → AccountInfo D) : SysState D :=
  { s with account := setKey s.account who (some (f (account_get dflt s who))) }

/-- Maximum value of the `RefCount` type (`u32`). -/
def refCountMax : Nat := 2 ^ 32 - 1

/-- Outcome of `create_account`. -/
inductive AccountCreationOutcome
  | created
  | alreadyExists
deriving DecidableEq, Repr

/-- Outcome of `remove_account`. -/
inductive AccountRemovalOutcome
  | reaped
  | retained
  | didNotExist
deriving DecidableEq, Repr

/-- `Pallet::create_account`: at zero sufficients the account is being
created (set the count to 1, fire `on_new_account`); otherwise increment the
count saturating at the `RefCount` maximum. -/
def create_account {D : Type} (dflt : D) (s : SysState D) (who : Nat) :
    AccountCreationOutcome × SysState D :=
  let a := account_get dflt s who
  if a.sufficients = 0 then
    (AccountCreationOutcome.created,
     { s with
        account := setKey s.account who (some { a with sufficients := 1 }),
        events := s.events ++ [SysEvent.newAccount who] })
  else
    (AccountCreationOutcome.alreadyExists,
     { s with
        account := setKey s.account who
          (some { a with sufficients := min (a.sufficients + 1) refCountMax }) })

/-- `Pallet::remove_account`: `DidNotExist` for an absent record, `Retained`
when the account data is not the default, otherwise remove the record, fire
`on_killed_account` and return `Reaped`. -/
def remove_account {D : Type} [DecidableEq D] (dflt : D) (s : SysState D)
    (who : Nat) : AccountRemovalOutcome × SysState D :=
  if account_exists s who = false then (AccountRemovalOutcome.didNotExist, s)
  else if (account_get dflt s who).data ≠ dflt then
    (AccountRemovalOutcome.retained, s)
  else
    (AccountRemovalOutcome.reaped,
     { s with
        account := setKey s.account who none,
        events := s.events ++ [SysEvent.killedAccount who] })

/-- `StoredMap::try_mutate_exists` of the evm-system pallet: present the
optional account data to the closure; on success write the data back into the
record (creating the record and firing `on_new_account` if it was absent), or
remove the whole record and fire `on_killed_account` when the closure leaves
`None`; on a closure error change nothing. -/
def try_mutate_exists {D E R : Type} (dflt : D) (s : SysState D) (k : Nat)
    (f : Option D → Except E (R × Option D)) : Except E R × SysState D :=
  let maybe_account_data :=
    if account_exists s k then some ((account_get dflt s k).data) else none
  let was_providing := account_exists s k
  match f maybe_account_data with
  | Except.error e => (Except.error e, s)
  | Except.ok (r, maybe_data) =>
    match maybe_data, was_providing with
    | some d, false =>
        let s1 := account_mutate dflt s k (fun a => { a with data := d })
        (Except.ok r, { s1 with events := s1.events ++ [SysEvent.newAccount k] })
    | some d, true =>
        (Except.ok r, account_mutate dflt s k (fun a => { a with data := d }))
    | none, true =>
        (Except.ok r,
         { s with
            account := setKey s.account k none,
            events := s.events ++ [SysEvent.killedAccount k] })
    | none, false => (Except.ok r, s)

-- Basic facts about the checked arithmetic, shared by the proofs below.

theorem checkedSub_some {a b : Nat} (h : b ≤ a) : checkedSub a b = some (a - b) := by
  simp [checkedSub, h]

theorem checkedSub_none {a b : Nat} (h : a < b) : checkedSub a b = none := by
  simp [checkedSub]
  omega

theorem checkedAdd_some {maxB a b : Nat} (h : a + b ≤ maxB) :
    checkedAdd maxB a b = some (a + b) := by
  simp [checkedAdd, h]

theorem checkedAdd_none {maxB a b : Nat} (h : maxB < a + b) :
    checkedAdd maxB a b = none := by
  simp [checkedAdd]
  omega

/-- C7: `Currency::issue(amount)` increases `TotalIssuance` by `amount`,
saturating at the maximum balance value, and returns a `NegativeImbalance`
whose peek equals the amount actually added; `Currency::burn(amount)`
symmetrically decreases `TotalIssuance`, saturating at zero, and returns a
`PositiveImbalance` whose peek equals the amount actually removed; for
`amount = 0` each returns a zero imbalance and leaves `TotalIssuance`
unchanged; neither operation can fail (both are total functions into a
result-state pair). -/
theorem c7_issue_burn_saturating (c : Config) (s : BalState) (amount : Nat)
    (hTI : s.totalIssuance ≤ c.maxBalance) :
    ((issue c s amount).2.totalIssuance
        = min (s.totalIssuance + amount) c.maxBalance
      ∧ (issue c s amount).1.peek
        = (issue c s amount).2.totalIssuance - s.totalIssuance
      ∧ (issue c s amount).2.accountStore = s.accountStore
      ∧ (issue c s amount).2.dustLog = s.dustLog)
    ∧ ((burn c s amount).2.totalIssuance = s.totalIssuance - amount
      ∧ (burn c s amount).1.peek
        = s.totalIssuance - (burn c s amount).2.totalIssuance
      ∧ (burn c s amount).2.accountStore = s.accountStore
      ∧ (burn c s amount).2.dustLog = s.dustLog)
    ∧ issue c s 0 = (NegativeImbalance.zero, s)
    ∧ burn c s 0 = (PositiveImbalance.zero, s) := by
  refine ⟨?_, ?_, by simp [issue], by simp [burn]⟩
  · by_cases h0 : amount = 0
    · subst h0
      simp [issue, NegativeImbalance.zero, NegativeImbalance.peek]
      omega
    · by_cases hof : s.totalIssuance + amount ≤ c.maxBalance
      · simp [issue, h0, checkedAdd_some hof, NegativeImbalance.peek]
        omega
      · rw [issue]
        simp only [h0, if_false]
        rw [checkedAdd_none (by omega)]
        simp [NegativeImbalance.peek]
        omega
  · by_cases h0 : amount = 0
    · subst h0
      simp [burn, PositiveImbalance.zero, PositiveImbalance.peek]
    · by_cases hle : amount ≤ s.totalIssuance
      · simp [burn, h0, checkedSub_some hle, PositiveImbalance.peek]
        omega
      · rw [burn]
        simp only [h0, if_false]
        rw [checkedSub_none (by omega)]
        simp [PositiveImbalance.peek]
        omega

/-- Witness for C7 at a concrete state: issuing 25 on top of 90 with maximum
balance 100 saturates `TotalIssuance` at 100. -/
theorem c7_issue_burn_saturating_witness :
    (issue ⟨100, 1⟩
      { accountStore := fun _ => none, totalIssuance := 90, dustLog := [] }
      25).2.totalIssuance = 100 := by
  have h := c7_issue_burn_saturating ⟨100, 1⟩
    { accountStore := fun _ => none, totalIssuance := 90, dustLog := [] }
    25 (by decide)
  exact h.1.1.trans (by decide)

/-- C8: for every imbalance token (of either polarity) holding amount `a` and
every amount `x`, `split x` returns two same-polarity tokens holding
`min x a` and `a - min x a`, whose amounts sum to `a`; merging the two tokens
produced by such a split yields a token holding the original amount `a`
(merge saturates at the maximum balance value, so `a` must fit in the balance
type, which every really held amount does). -/
theorem c8_split_merge_round_trip (maxB a x : Nat) (h : a ≤ maxB) :
    (PositiveImbalance.split ⟨a⟩ x = (⟨min x a⟩, ⟨a - min x a⟩)
      ∧ (PositiveImbalance.split ⟨a⟩ x).1.peek
          + (PositiveImbalance.split ⟨a⟩ x).2.peek = a
      ∧ PositiveImbalance.merge maxB (PositiveImbalance.split ⟨a⟩ x).1
          (PositiveImbalance.split ⟨a⟩ x).2 = ⟨a⟩)
    ∧ (NegativeImbalance.split ⟨a⟩ x = (⟨min x a⟩, ⟨a - min x a⟩)
      ∧ (NegativeImbalance.split ⟨a⟩ x).1.peek
          + (NegativeImbalance.split ⟨a⟩ x).2.peek = a
      ∧ NegativeImbalance.merge maxB (NegativeImbalance.split ⟨a⟩ x).1
          (NegativeImbalance.split ⟨a⟩ x).2 = ⟨a⟩) := by
  constructor
  · refine ⟨?_, ?_, ?_⟩
    · simp [PositiveImbalance.split, Nat.min_comm]
    · simp [PositiveImbalance.split, PositiveImbalance.peek]
    · simp [PositiveImbalance.split, PositiveImbalance.merge, satAdd]
      omega
  · refine ⟨?_, ?_, ?_⟩
    · simp [NegativeImbalance.split, Nat.min_comm]
    · simp [NegativeImbalance.split, NegativeImbalance.peek]
    · simp [NegativeImbalance.split, NegativeImbalance.merge, satAdd]
      omega

/-- Witness for C8 at `maxB = 10`, `a = 7`, `x = 3`. -/
theorem c8_split_merge_round_trip_witness :
    PositiveImbalance.split ⟨7⟩ 3 = (⟨3⟩, ⟨4⟩)
      ∧ PositiveImbalance.merge 10 ⟨3⟩ ⟨4⟩ = ⟨7⟩ := by
  have h := c8_split_merge_round_trip 10 7 3 (by decide)
  refine ⟨h.1.1.trans (by decide), ?_⟩
  have h3 := h.1.2.2
  rw [h.1.1] at h3
  exact h3.trans (by decide)

-- Helper lemmas about the mutation protocol, shared by several proofs below.

theorem tmawd_error {E R : Type} (c : Config) (s : BalState) (who : Nat)
    (f : AccountData → Bool → BalState → Except E (R × AccountData) × BalState)
    (e : E) (s1 : BalState)
    (h : f (loaded_account s who) (is_new_account s who) s = (Except.error e, s1)) :
    try_mutate_account_with_dust c s who f = (Except.error e, s1) := by
  unfold try_mutate_account_with_dust
  rw [h]

theorem tmawd_ok {E R : Type} (c : Config) (s : BalState) (who : Nat)
    (f : AccountData → Bool → BalState → Except E (R × AccountData) × BalState)
    (r : R) (account1 : AccountData) (s1 : BalState)
    (h : f (loaded_account s who) (is_new_account s who) s
      = (Except.ok (r, account1), s1)) :
    try_mutate_account_with_dust c s who f =
      (Except.ok (r, (post_mutation c account1).2.map (fun d => (who, d))),
       { s1 with
          accountStore := setKey s1.accountStore who (post_mutation c account1).1 }) := by
  unfold try_mutate_account_with_dust
  rw [h]

theorem tma_error {E R : Type} (c : Config) (s : BalState) (who : Nat)
    (f : AccountData → Bool → BalState → Except E (R × AccountData) × BalState)
    (e : E) (s1 : BalState)
    (h : f (loaded_account s who) (is_new_account s who) s = (Except.error e, s1)) :
    try_mutate_account c s who f = (Except.error e, s1) := by
  unfold try_mutate_account
  rw [tmawd_error c s who f e s1 h]

theorem tma_ok {E R : Type} (c : Config) (s : BalState) (who : Nat)
    (f : AccountData → Bool → BalState → Except E (R × AccountData) × BalState)
    (r : R) (account1 : AccountData) (s1 : BalState)
    (h : f (loaded_account s who) (is_new_account s who) s
      = (Except.ok (r, account1), s1)) :
    try_mutate_account c s who f =
      (Except.ok r,
       drop_dust_cleaner
         { s1 with
            accountStore := setKey s1.accountStore who (post_mutation c account1).1 }
         ((post_mutation c account1).2.map (fun d => (who, d)))) := by
  unfold try_mutate_account
  rw [tmawd_ok c s who f r account1 s1 h]

theorem post_mutation_stores {c : Config} {acct d : AccountData}
    (h : (post_mutation c acct).1 = some d) :
    d = acct ∧ c.existentialDeposit ≤ acct.total c.maxBalance := by
  unfold post_mutation at h
  by_cases h1 : acct.total c.maxBalance < c.existentialDeposit
  · rw [if_pos h1] at h
    by_cases h2 : acct.total c.maxBalance = 0 <;> simp [h2] at h
  · rw [if_neg h1] at h
    simp at h
    exact ⟨h.symm, by omega⟩

theorem drop_dust_cleaner_accountStore (s : BalState) (dc : DustCleaner) :
    (drop_dust_cleaner s dc).accountStore = s.accountStore := by
  cases dc with
  | none => rfl
  | some p =>
    cases p
    rfl

/-- C9: `withdraw_consequence(who, amount, account)` returns `Underflow` when
`TotalIssuance` cannot absorb the decrease, `NoFunds` when the total or free
balance cannot cover `amount` (total-coverage checked before the frozen
floor, free-coverage after the `ReducedToZero` computation but before the
frozen check), `Frozen` when the resulting free balance would be below the
`Reasons::All` frozen floor, `ReducedToZero(new_total)` when all those checks
pass and the resulting total would fall below the existential deposit,
`Success` otherwise, and `Success` unconditionally for `amount = 0`; the
function is read-only (it takes the state and returns only a consequence
value). -/
theorem c9_withdraw_consequence_cases (c : Config) (s : BalState)
    (who amount : Nat) (account : AccountData) :
    (withdraw_consequence c s who 0 account = WithdrawConsequence.success)
    ∧ (amount ≠ 0 → s.totalIssuance < amount →
        withdraw_consequence c s who amount account = WithdrawConsequence.underflow)
    ∧ (amount ≠ 0 → amount ≤ s.totalIssuance →
        account.total c.maxBalance < amount →
        withdraw_consequence c s who amount account = WithdrawConsequence.noFunds)
    ∧ (amount ≠ 0 → amount ≤ s.totalIssuance →
        amount ≤ account.total c.maxBalance → account.free < amount →
        withdraw_consequence c s who amount account = WithdrawConsequence.noFunds)
    ∧ (amount ≠ 0 → amount ≤ s.totalIssuance →
        amount ≤ account.total c.maxBalance → amount ≤ account.free →
        account.free - amount < account.frozen Reasons.all →
        withdraw_consequence c s who amount account = WithdrawConsequence.frozen)
    ∧ (amount ≠ 0 → amount ≤ s.totalIssuance →
        amount ≤ account.total c.maxBalance → amount ≤ account.free →
        account.frozen Reasons.all ≤ account.free - amount →
        account.total c.maxBalance - amount < c.existentialDeposit →
        withdraw_consequence c s who amount account
          = WithdrawConsequence.reducedToZero (account.total c.maxBalance - amount))
    ∧ (amount ≠ 0 → amount ≤ s.totalIssuance →
        amount ≤ account.total c.maxBalance → amount ≤ account.free →
        account.frozen Reasons.all ≤ account.free - amount →
        c.existentialDeposit ≤ account.total c.maxBalance - amount →
        withdraw_consequence c s who amount account = WithdrawConsequence.success) := by
  refine ⟨by simp [withdraw_consequence], ?_, ?_, ?_, ?_, ?_, ?_⟩
  · intro h0 h1
    unfold withdraw_consequence
    rw [if_neg h0, checkedSub_none h1]
  · intro h0 h1 h2
    unfold withdraw_consequence
    rw [if_neg h0, checkedSub_some h1, checkedSub_none h2]
  · intro h0 h1 h2 h3
    unfold withdraw_consequence
    rw [if_neg h0, checkedSub_some h1, checkedSub_some h2, checkedSub_none h3]
  · intro h0 h1 h2 h3 h4
    unfold withdraw_consequence
    rw [if_neg h0, checkedSub_some h1, checkedSub_some h2, checkedSub_some h3]
    simp only []
    rw [if_pos h4]
  · intro h0 h1 h2 h3 h4 h5
    unfold withdraw_consequence
    rw [if_neg h0, checkedSub_some h1, checkedSub_some h2, checkedSub_some h3]
    simp only []
    rw [if_neg (by omega), if_pos h5]
  · intro h0 h1 h2 h3 h4 h5
    unfold withdraw_consequence
    rw [if_neg h0, checkedSub_some h1, checkedSub_some h2, checkedSub_some h3]
    simp only []
    rw [if_neg (by omega), if_neg (by omega)]

/-- Witness for C9: an account with free 10 and existential deposit 5, asked
to withdraw 7, is predicted `ReducedToZero 3`. -/
theorem c9_withdraw_consequence_cases_witness :
    withdraw_consequence ⟨1000, 5⟩
      { accountStore := fun _ => none, totalIssuance := 100, dustLog := [] }
      0 7 ⟨10, 0, 0, 0⟩ = WithdrawConsequence.reducedToZero 3 := by
  have h := (c9_withdraw_consequence_cases ⟨1000, 5⟩
    { accountStore := fun _ => none, totalIssuance := 100, dustLog := [] }
    0 7 ⟨10, 0, 0, 0⟩).2.2.2.2.2.1
    (by decide) (by decide) (by decide) (by decide) (by decide) (by decide)
  exact h.trans (by decide)

/-- C1: for every account mutation through `try_mutate_account_with_dust`
(and `try_mutate_account`) that succeeds, the persisted outcome is decided by
`post_mutation`: a resulting total (free saturating-plus reserved) at least
the existential deposit is stored; a zero total is removed with no dust; a
total strictly between zero and the existential deposit is removed with a
`NegativeImbalance` of exactly that total produced as dust.  Consequently the
protocol preserves the invariant that every stored record has total at least
the existential deposit (assuming the closure itself preserves it on the
state it threads, which pure closures do trivially).  Stated for a positive
existential deposit, as the sub-minimum removal behaviour presupposes. -/
theorem c1_mutation_dust_and_ed_invariant {E R : Type} (c : Config)
    (acct : AccountData) (s : BalState) (who : Nat)
    (f : AccountData → Bool → BalState → Except E (R × AccountData) × BalState)
    (hED : 0 < c.existentialDeposit) :
    ((c.existentialDeposit ≤ acct.total c.maxBalance →
        post_mutation c acct = (some acct, none))
      ∧ (acct.total c.maxBalance = 0 → post_mutation c acct = (none, none))
      ∧ (0 < acct.total c.maxBalance →
          acct.total c.maxBalance < c.existentialDeposit →
          post_mutation c acct = (none, some ⟨acct.total c.maxBalance⟩)))
    ∧ (∀ (r : R) (account1 : AccountData) (s1 : BalState),
        f (loaded_account s who) (is_new_account s who) s
            = (Except.ok (r, account1), s1) →
        try_mutate_account_with_dust c s who f =
          (Except.ok (r, (post_mutation c account1).2.map (fun d => (who, d))),
           { s1 with
              accountStore :=
                setKey s1.accountStore who (post_mutation c account1).1 }))
    ∧ ((∀ a b st, ed_invariant c st → ed_invariant c (f a b st).2) →
        ed_invariant c s →
        ed_invariant c (try_mutate_account_with_dust c s who f).2
          ∧ ed_invariant c (try_mutate_account c s who f).2) := by
  refine ⟨⟨?_, ?_, ?_⟩, ?_, ?_⟩
  · intro h
    simp only [post_mutation]
    rw [if_neg (by omega)]
  · intro h
    simp only [post_mutation]
    rw [if_pos (by omega), if_pos h]
  · intro h1 h2
    simp only [post_mutation]
    rw [if_pos h2, if_neg (by omega)]
  · intro r account1 s1 h
    exact tmawd_ok c s who f r account1 s1 h
  · intro hf hs
    have hwd : ed_invariant c (try_mutate_account_with_dust c s who f).2 := by
      have hst : ed_invariant c
          (f (loaded_account s who) (is_new_account s who) s).2 := hf _ _ _ hs
      cases hcall : f (loaded_account s who) (is_new_account s who) s with
      | mk res st =>
        rw [hcall] at hst
        cases res with
        | error e =>
          rw [tmawd_error c s who f e st hcall]
          exact hst
        | ok rv =>
          obtain ⟨r, account1⟩ := rv
          rw [tmawd_ok c s who f r account1 st hcall]
          intro a d had
          simp only [setKey] at had
          by_cases haw : a = who
          · rw [if_pos haw] at had
            obtain ⟨hda, hle⟩ := post_mutation_stores had
            rw [hda]
            exact hle
          · rw [if_neg haw] at had
            exact hst a d had
    refine ⟨hwd, ?_⟩
    unfold try_mutate_account
    cases h2 : try_mutate_account_with_dust c s who f with
    | mk res st2 =>
      have hst2 : ed_invariant c st2 := by rw [h2] at hwd; exact hwd
      cases res with
      | error e => exact hst2
      | ok rv =>
        obtain ⟨r, dc⟩ := rv
        intro a d had
        rw [drop_dust_cleaner_accountStore] at had
        exact hst2 a d had

/-- Witness for C1: dust extraction at total 3 with existential deposit 5,
and invariant preservation from the empty state through an identity closure. -/
theorem c1_mutation_dust_and_ed_invariant_witness :
    post_mutation ⟨100, 5⟩ ⟨3, 0, 0, 0⟩
        = (none, some (⟨3⟩ : NegativeImbalance))
      ∧ ed_invariant ⟨100, 5⟩
          (try_mutate_account_with_dust (E := Unit) ⟨100, 5⟩
            { accountStore := fun _ => none, totalIssuance := 0, dustLog := [] } 7
            (fun a _ st => (Except.ok ((), a), st))).2 := by
  have h := c1_mutation_dust_and_ed_invariant (E := Unit) (R := Unit) ⟨100, 5⟩
    ⟨3, 0, 0, 0⟩
    { accountStore := fun _ => none, totalIssuance := 0, dustLog := [] } 7
    (fun a _ st => (Except.ok ((), a), st)) (by decide)
  refine ⟨?_, ?_⟩
  · exact (h.1.2.2 (by decide) (by decide)).trans (by decide)
  · exact (h.2.2 (fun a b st hinv => hinv)
      (fun a d hd => Option.noConfusion hd)).1

/-- C2: if the caller-supplied closure returns an error (leaving the threaded
state untouched, as every pure closure does), `try_mutate_account_with_dust`
and `try_mutate_account` propagate the error verbatim and return the state
exactly as it was: no record written or removed, `TotalIssuance` and the dust
log unchanged; likewise evm-system's `StoredMap::try_mutate_exists`
propagates the closure's error verbatim with the account map and the
lifecycle-callback log exactly as before. -/
theorem c2_closure_error_leaves_state_unchanged {E R D F Q : Type}
    (c : Config) (s : BalState) (who : Nat)
    (f : AccountData → Bool → BalState → Except E (R × AccountData) × BalState)
    (e : E) (dflt : D) (ss : SysState D) (k : Nat)
    (g : Option D → Except F (Q × Option D)) (e2 : F) :
    (f (loaded_account s who) (is_new_account s who) s = (Except.error e, s) →
       try_mutate_account_with_dust c s who f = (Except.error e, s)
         ∧ try_mutate_account c s who f = (Except.error e, s))
    ∧ (g (if account_exists ss k then some ((account_get dflt ss k).data)
          else none) = Except.error e2 →
       try_mutate_exists dflt ss k g = (Except.error e2, ss)) := by
  constructor
  · intro h
    exact ⟨tmawd_error c s who f e s h, tma_error c s who f e s h⟩
  · intro h
    simp only [try_mutate_exists]
    rw [h]

/-- Witness for C2: constant-error closures over concrete states. -/
theorem c2_closure_error_leaves_state_unchanged_witness :
    try_mutate_account (E := DispatchError) (R := Unit) ⟨100, 5⟩
        { accountStore := fun _ => none, totalIssuance := 9, dustLog := [] } 3
        (fun _ _ st => (Except.error DispatchError.deadAccount, st))
      = (Except.error DispatchError.deadAccount,
         { accountStore := fun _ => none, totalIssuance := 9, dustLog := [] })
    ∧ try_mutate_exists (E := Nat) (R := Unit) (0 : Nat)
        { account := fun _ => none, events := [] } 3
        (fun _ => Except.error 42)
      = (Except.error 42, { account := fun _ => none, events := [] }) := by
  have h := c2_closure_error_leaves_state_unchanged (R := Unit) (Q := Unit)
    ⟨100, 5⟩
    { accountStore := fun _ => none, totalIssuance := 9, dustLog := [] } 3
    (fun _ _ st => (Except.error DispatchError.deadAccount, st))
    DispatchError.deadAccount (0 : Nat)
    { account := fun _ => none, events := [] } 3
    (fun _ => Except.error (42 : Nat)) 42
  exact ⟨(h.1 rfl).2, h.2 rfl⟩

/-- C6 counterexample: an existing record with `sufficients = 2` and default
data is reaped outright — the record is removed and `on_killed_account`
fires — rather than having its reference count decremented to 1 and being
retained as the claim states; `remove_account` never consults or decrements
`sufficients`. -/
theorem c6_remove_account_counterexample :
    (remove_account (0 : Nat)
      { account := fun n => if n = 1 then some ⟨0, 2, 0⟩ else none,
        events := [] } 1).1 = AccountRemovalOutcome.reaped
    ∧ ((remove_account (0 : Nat)
      { account := fun n => if n = 1 then some ⟨0, 2, 0⟩ else none,
        events := [] } 1).2.account 1) = none
    ∧ ((remove_account (0 : Nat)
      { account := fun n => if n = 1 then some ⟨0, 2, 0⟩ else none,
        events := [] } 1).2.events) = [SysEvent.killedAccount 1] := by
  refine ⟨?_, ?_, ?_⟩ <;> decide

/-- C6 amended: `remove_account(who)` returns `DidNotExist` when the record
is absent and `Retained` (without destroying anything) when the account data
is non-default; otherwise — regardless of the `sufficients` reference count,
which is neither consulted nor decremented — it removes the record, fires the
`on_killed_account` callback and returns `Reaped`. -/
theorem c6_remove_account_amended {D : Type} [DecidableEq D] (dflt : D)
    (s : SysState D) (who : Nat) :
    (s.account who = none →
        remove_account dflt s who = (AccountRemovalOutcome.didNotExist, s))
    ∧ (∀ a, s.account who = some a → a.data ≠ dflt →
        remove_account dflt s who = (AccountRemovalOutcome.retained, s))
    ∧ (∀ a, s.account who = some a → a.data = dflt →
        remove_account dflt s who =
          (AccountRemovalOutcome.reaped,
           { s with
              account := setKey s.account who none,
              events := s.events ++ [SysEvent.killedAccount who] })) := by
  refine ⟨?_, ?_, ?_⟩
  · intro h
    simp [remove_account, account_exists, h]
  · intro a ha hne
    simp [remove_account, account_exists, account_get, ha, hne]
  · intro a ha hd
    simp [remove_account, account_exists, account_get, ha, hd]

/-- Witness for the amended C6: a record with non-default data is retained. -/
theorem c6_remove_account_amended_witness :
    remove_account (0 : Nat)
      { account := fun n => if n = 1 then some ⟨0, 1, 7⟩ else none,
        events := [] } 1
      = (AccountRemovalOutcome.retained,
         { account := fun n => if n = 1 then some ⟨0, 1, 7⟩ else none,
           events := [] }) :=
  (c6_remove_account_amended (0 : Nat)
    { account := fun n => if n = 1 then some ⟨0, 1, 7⟩ else none,
      events := [] } 1).2.1 ⟨0, 1, 7⟩ rfl (by decide)

/-- C10: in evm-system's `StoredMap::try_mutate_exists`, for a pre-existing
account, a closure leaving the data present rewrites only the `data` field of
the stored record — `nonce` and `sufficients` are unchanged and no lifecycle
callback fires — while a closure leaving the data absent removes the entire
record (nonce and sufficients counters deleted with it) and fires the
`on_killed_account` callback, regardless of the nonce or sufficients values. -/
theorem c10_try_mutate_exists_data_field_only {D E R : Type} (dflt : D)
    (s : SysState D) (k : Nat) (a : AccountInfo D)
    (f : Option D → Except E (R × Option D)) (r : R)
    (ha : s.account k = some a) :
    (∀ d, f (some a.data) = Except.ok (r, some d) →
      try_mutate_exists dflt s k f =
        (Except.ok r,
         { s with
            account := setKey s.account k (some ⟨a.nonce, a.sufficients, d⟩) }))
    ∧ (f (some a.data) = Except.ok (r, none) →
      try_mutate_exists dflt s k f =
        (Except.ok r,
         { s with
            account := setKey s.account k none,
            events := s.events ++ [SysEvent.killedAccount k] })) := by
  have hex : account_exists s k = true := by simp [account_exists, ha]
  have hget : account_get dflt s k = a := by simp [account_get, ha]
  constructor
  · intro d hf
    simp only [try_mutate_exists, hex, if_true, hget, hf]
    simp [account_mutate, hget]
  · intro hf
    simp only [try_mutate_exists, hex, if_true, hget, hf]

/-- Witness for C10: updating the data of an existing record with nonce 9 and
sufficients 3 keeps both counters. -/
theorem c10_try_mutate_exists_data_field_only_witness :
    try_mutate_exists (E := Unit) (0 : Nat)
      { account := fun n => if n = 4 then some ⟨9, 3, 5⟩ else none,
        events := [] } 4
      (fun _ => Except.ok ((), some 8))
      = (Except.ok (),
         { account :=
            setKey (fun n => if n = 4 then some ⟨9, 3, 5⟩ else none) 4
              (some ⟨9, 3, 8⟩),
           events := [] }) :=
  (c10_try_mutate_exists_data_field_only (0 : Nat)
    { account := fun n => if n = 4 then some ⟨9, 3, 5⟩ else none,
      events := [] } 4 ⟨9, 3, 5⟩ (fun _ => Except.ok ((), some 8)) () rfl).1 8 rfl

-- Directed evaluation lemmas for post_mutation, ensure_can_withdraw and the
-- withdraw closure, shared by the proofs of the ledger-operation claims.

theorem post_mutation_keep {c : Config} {acct : AccountData}
    (h : c.existentialDeposit ≤ acct.total c.maxBalance) :
    post_mutation c acct = (some acct, none) := by
  simp only [post_mutation]
  rw [if_neg (by omega)]

theorem post_mutation_zero {c : Config} {acct : AccountData}
    (h0 : 0 < c.existentialDeposit) (h : acct.total c.maxBalance = 0) :
    post_mutation c acct = (none, none) := by
  simp only [post_mutation]
  rw [if_pos (by omega), if_pos h]

theorem post_mutation_dust {c : Config} {acct : AccountData}
    (h1 : 0 < acct.total c.maxBalance)
    (h2 : acct.total c.maxBalance < c.existentialDeposit) :
    post_mutation c acct = (none, some ⟨acct.total c.maxBalance⟩) := by
  simp only [post_mutation]
  rw [if_pos h2, if_neg (by omega)]

theorem ensure_can_withdraw_ok {s : BalState} {who amount : Nat}
    {reasons : Reasons} {nb : Nat}
    (h : (loaded_account s who).frozen reasons ≤ nb) :
    ensure_can_withdraw s who amount reasons nb = Except.ok () := by
  unfold ensure_can_withdraw
  by_cases h0 : amount = 0
  · rw [if_pos h0]
  · rw [if_neg h0, if_pos h]

theorem ensure_can_withdraw_err {s : BalState} {who amount : Nat}
    {reasons : Reasons} {nb : Nat} (h0 : amount ≠ 0)
    (h : nb < (loaded_account s who).frozen reasons) :
    ensure_can_withdraw s who amount reasons nb
      = Except.error DispatchError.liquidityRestrictions := by
  unfold ensure_can_withdraw
  rw [if_neg h0, if_neg (by omega)]

theorem withdraw_closure_insufficient {c : Config} {who value : Nat}
    {reasons : Reasons} {liveness : ExistenceRequirement}
    {account : AccountData} {b : Bool} {st : BalState}
    (h : account.free < value) :
    withdraw_closure c who value reasons liveness account b st
      = (Except.error DispatchError.insufficientBalance, st) := by
  unfold withdraw_closure
  rw [checkedSub_none h]

theorem withdraw_closure_keepAlive {c : Config} {who value : Nat}
    {reasons : Reasons} {liveness : ExistenceRequirement}
    {account : AccountData} {b : Bool} {st : BalState}
    (h1 : value ≤ account.free)
    (h2 : ¬(liveness = ExistenceRequirement.allowDeath
        ∨ ¬(account.free - value + account.reserved < c.existentialDeposit
            ∧ c.existentialDeposit ≤ account.free + account.reserved))) :
    withdraw_closure c who value reasons liveness account b st
      = (Except.error DispatchError.keepAlive, st) := by
  unfold withdraw_closure
  rw [checkedSub_some h1]
  simp only []
  rw [if_neg h2]

theorem withdraw_closure_frozen {c : Config} {who value : Nat}
    {reasons : Reasons} {liveness : ExistenceRequirement}
    {account : AccountData} {b : Bool} {st : BalState} (h0 : value ≠ 0)
    (h1 : value ≤ account.free)
    (h2 : liveness = ExistenceRequirement.allowDeath
        ∨ ¬(account.free - value + account.reserved < c.existentialDeposit
            ∧ c.existentialDeposit ≤ account.free + account.reserved))
    (h3 : account.free - value < (loaded_account st who).frozen reasons) :
    withdraw_closure c who value reasons liveness account b st
      = (Except.error DispatchError.liquidityRestrictions, st) := by
  unfold withdraw_closure
  rw [checkedSub_some h1]
  simp only []
  rw [if_pos h2, ensure_can_withdraw_err h0 h3]

theorem withdraw_closure_ok {c : Config} {who value : Nat}
    {reasons : Reasons} {liveness : ExistenceRequirement}
    {account : AccountData} {b : Bool} {st : BalState}
    (h1 : value ≤ account.free)
    (h2 : liveness = ExistenceRequirement.allowDeath
        ∨ ¬(account.free - value + account.reserved < c.existentialDeposit
            ∧ c.existentialDeposit ≤ account.free + account.reserved))
    (h3 : (loaded_account st who).frozen reasons ≤ account.free - value) :
    withdraw_closure c who value reasons liveness account b st
      = (Except.ok (⟨value⟩, { account with free := account.free - value }), st) := by
  unfold withdraw_closure
  rw [checkedSub_some h1]
  simp only []
  rw [if_pos h2, ensure_can_withdraw_ok h3]

/-- C5 amended: `withdraw(who, value, reasons, liveness)` fails with
`InsufficientBalance` when `value` exceeds the free balance; fails with
`KeepAlive` exactly when liveness forbids death and the withdrawal would
newly drop the total from at least the existential deposit to below it;
fails with `LiquidityRestrictions` when the resulting free balance would be
below the reason-scoped frozen floor; otherwise it succeeds, returns a
`NegativeImbalance` of amount `value`, and persists the record with free
reduced by exactly `value` subject to the dust rule of the mutation
protocol: whenever the resulting total is at least the existential deposit
the stored free balance is exactly the old free minus `value`, while a
sub-minimum resulting total has the record removed as dust instead.  On any
failure the state is unchanged; for `value = 0` it succeeds with a zero
imbalance and no state change. -/
theorem c5_withdraw_amended (c : Config) (s : BalState) (who value : Nat)
    (reasons : Reasons) (liveness : ExistenceRequirement) :
    (withdraw c s who 0 reasons liveness = (Except.ok NegativeImbalance.zero, s))
    ∧ (value ≠ 0 → (loaded_account s who).free < value →
        withdraw c s who value reasons liveness
          = (Except.error DispatchError.insufficientBalance, s))
    ∧ ((withdraw c s who value reasons liveness).1
          = Except.error DispatchError.keepAlive ↔
        value ≠ 0 ∧ value ≤ (loaded_account s who).free
          ∧ liveness ≠ ExistenceRequirement.allowDeath
          ∧ (loaded_account s who).free - value + (loaded_account s who).reserved
              < c.existentialDeposit
          ∧ c.existentialDeposit
              ≤ (loaded_account s who).free + (loaded_account s who).reserved)
    ∧ (value ≠ 0 → value ≤ (loaded_account s who).free →
        (liveness = ExistenceRequirement.allowDeath
          ∨ ¬((loaded_account s who).free - value + (loaded_account s who).reserved
                < c.existentialDeposit
              ∧ c.existentialDeposit
                  ≤ (loaded_account s who).free + (loaded_account s who).reserved)) →
        (loaded_account s who).free - value
            < (loaded_account s who).frozen reasons →
        withdraw c s who value reasons liveness
          = (Except.error DispatchError.liquidityRestrictions, s))
    ∧ (value ≠ 0 → value ≤ (loaded_account s who).free →
        (liveness = ExistenceRequirement.allowDeath
          ∨ ¬((loaded_account s who).free - value + (loaded_account s who).reserved
                < c.existentialDeposit
              ∧ c.existentialDeposit
                  ≤ (loaded_account s who).free + (loaded_account s who).reserved)) →
        (loaded_account s who).frozen reasons
            ≤ (loaded_account s who).free - value →
        (withdraw c s who value reasons liveness).1
            = Except.ok ⟨value⟩
          ∧ (withdraw c s who value reasons liveness).2.accountStore who
              = (post_mutation c
                  { loaded_account s who with
                      free := (loaded_account s who).free - value }).1
          ∧ (c.existentialDeposit ≤
                ({ loaded_account s who with
                    free := (loaded_account s who).free - value }).total c.maxBalance →
              free_balance (withdraw c s who value reasons liveness).2 who
                = (loaded_account s who).free - value))
    ∧ (∀ e, (withdraw c s who value reasons liveness).1 = Except.error e →
        (withdraw c s who value reasons liveness).2 = s) := by
  refine ⟨?_, ?_, ?_, ?_, ?_, ?_⟩
  · unfold withdraw
    rw [if_pos rfl]
  · intro h0 h1
    unfold withdraw
    rw [if_neg h0]
    exact tma_error c s who _ _ s (withdraw_closure_insufficient h1)
  · constructor
    · intro h
      by_cases h0 : value = 0
      · unfold withdraw at h
        rw [if_pos h0] at h
        simp at h
      · by_cases h1 : (loaded_account s who).free < value
        · unfold withdraw at h
          rw [if_neg h0,
            tma_error c s who _ _ s (withdraw_closure_insufficient h1)] at h
          simp at h
        · by_cases h2 : liveness = ExistenceRequirement.allowDeath
              ∨ ¬((loaded_account s who).free - value
                    + (loaded_account s who).reserved < c.existentialDeposit
                  ∧ c.existentialDeposit
                      ≤ (loaded_account s who).free + (loaded_account s who).reserved)
          · by_cases h3 : (loaded_account s who).free - value
                < (loaded_account s who).frozen reasons
            · unfold withdraw at h
              rw [if_neg h0, tma_error c s who _ _ s
                (withdraw_closure_frozen h0 (by omega) h2 h3)] at h
              simp at h
            · unfold withdraw at h
              rw [if_neg h0, tma_ok c s who _ _ _ s
                (withdraw_closure_ok (by omega) h2 (by omega))] at h
              simp at h
          · push_neg at h2
            exact ⟨h0, by omega, h2.1, h2.2.1, h2.2.2⟩
    · rintro ⟨h0, h1, h2, h3, h4⟩
      unfold withdraw
      rw [if_neg h0, tma_error c s who _ _ s
        (withdraw_closure_keepAlive h1 (by push_neg; exact ⟨h2, h3, h4⟩))]
  · intro h0 h1 h2 h3
    unfold withdraw
    rw [if_neg h0]
    exact tma_error c s who _ _ s (withdraw_closure_frozen h0 h1 h2 h3)
  · intro h0 h1 h2 h3
    unfold withdraw
    rw [if_neg h0, tma_ok c s who _ _ _ s (withdraw_closure_ok h1 h2 h3)]
    refine ⟨rfl, ?_, ?_⟩
    · rw [drop_dust_cleaner_accountStore]
      simp [setKey]
    · intro hed
      rw [post_mutation_keep hed]
      simp [free_balance, loaded_account, drop_dust_cleaner, setKey]
  · intro e he
    by_cases h0 : value = 0
    · unfold withdraw at he
      rw [if_pos h0] at he
      simp at he
    · by_cases h1 : (loaded_account s who).free < value
      · unfold withdraw
        rw [if_neg h0, tma_error c s who _ _ s (withdraw_closure_insufficient h1)]
      · by_cases h2 : liveness = ExistenceRequirement.allowDeath
            ∨ ¬((loaded_account s who).free - value
                  + (loaded_account s who).reserved < c.existentialDeposit
                ∧ c.existentialDeposit
                    ≤ (loaded_account s who).free + (loaded_account s who).reserved)
        · by_cases h3 : (loaded_account s who).free - value
              < (loaded_account s who).frozen reasons
          · unfold withdraw
            rw [if_neg h0, tma_error c s who _ _ s
              (withdraw_closure_frozen h0 (by omega) h2 h3)]
          · exfalso
            unfold withdraw at he
            rw [if_neg h0, tma_ok c s who _ _ _ s
              (withdraw_closure_ok (by omega) h2 (by omega))] at he
            simp at he
        · unfold withdraw
          rw [if_neg h0, tma_error c s who _ _ s
            (withdraw_closure_keepAlive (by omega) h2)]

/-- C5 counterexample to the original claim: with existential deposit 5, an
account with free 10 withdrawing 7 under `AllowDeath` succeeds, but the
mutation protocol then removes the record as dust (resulting total 3 is below
the deposit), so the persisted free balance is 0, not `10 - 7 = 3` — the
claim's "on success reduces free by exactly value" fails. -/
theorem c5_withdraw_counterexample :
    (withdraw ⟨1000000, 5⟩
      { accountStore := fun n => if n = 0 then some ⟨10, 0, 0, 0⟩ else none,
        totalIssuance := 100, dustLog := [] } 0 7 Reasons.misc
      ExistenceRequirement.allowDeath).1 = Except.ok (⟨7⟩ : NegativeImbalance)
    ∧ free_balance (withdraw ⟨1000000, 5⟩
      { accountStore := fun n => if n = 0 then some ⟨10, 0, 0, 0⟩ else none,
        totalIssuance := 100, dustLog := [] } 0 7 Reasons.misc
      ExistenceRequirement.allowDeath).2 0 = 0
    ∧ (10 : Nat) - 7 ≠ 0 := by
  refine ⟨rfl, by decide, by decide⟩

/-- Witness for the amended C5: the spec scenario free = 100, existential
deposit 1, withdraw 100 under `AllowDeath` succeeds with imbalance 100 and
the account is reaped (zero total, record removed). -/
theorem c5_withdraw_amended_witness :
    (withdraw ⟨1000, 1⟩
      { accountStore := fun n => if n = 0 then some ⟨100, 0, 0, 0⟩ else none,
        totalIssuance := 100, dustLog := [] } 0 100 Reasons.misc
      ExistenceRequirement.allowDeath).1 = Except.ok (⟨100⟩ : NegativeImbalance)
    ∧ (withdraw ⟨1000, 1⟩
      { accountStore := fun n => if n = 0 then some ⟨100, 0, 0, 0⟩ else none,
        totalIssuance := 100, dustLog := [] } 0 100 Reasons.misc
      ExistenceRequirement.allowDeath).2.accountStore 0 = none := by
  have h := (c5_withdraw_amended ⟨1000, 1⟩
    { accountStore := fun n => if n = 0 then some ⟨100, 0, 0, 0⟩ else none,
      totalIssuance := 100, dustLog := [] } 0 100 Reasons.misc
    ExistenceRequirement.allowDeath).2.2.2.2.1
    (by decide) (by decide) (Or.inl rfl) (by decide)
  exact ⟨h.1, h.2.1.trans (by decide)⟩

theorem slash_closure_attempt0 (c : Config) (value : Nat)
    (account : AccountData) (b : Bool) (st : BalState) :
    slash_closure c value 0 account b st
      = (Except.ok ((⟨min value (account.free + account.reserved)⟩,
            value - min value (account.free + account.reserved)),
          { account with
              free := account.free - min account.free value,
              reserved := account.reserved
                - min account.reserved (value - min account.free value) }), st) := by
  obtain ⟨f, rv, mf, ff⟩ := account
  simp only [slash_closure, reduceIte]
  by_cases hrem : value - min f value ≠ 0
  · rw [if_pos hrem]
    simp only [Prod.mk.injEq, Except.ok.injEq, NegativeImbalance.mk.injEq,
      AccountData.mk.injEq, and_true, true_and]
    omega
  · rw [if_neg hrem]
    simp only [Prod.mk.injEq, Except.ok.injEq, NegativeImbalance.mk.injEq,
      AccountData.mk.injEq, and_true, true_and]
    omega

/-- C4: `slash(who, value)` never returns an error (it is a total function
into a result-state pair): it returns `(NegativeImbalance(actually_slashed),
value - actually_slashed)` where the amount actually slashed is
`min value (free + reserved)`, taken first from free and then from reserved
balance, with the mutated record then subject to the mutation protocol's
persistence rule; for `value = 0`, or for an account whose total balance is
zero, it returns a zero imbalance and leaves the state untouched (with the
full `value` as remainder in the latter case).  The first mutation attempt's
closure is total, so the liveness-capped second attempt is never consulted,
making the claim's "second attempt" proviso vacuously satisfied.  The claim's
concrete scenario — slashing 1000 from free 50 yields `(50, 950)` and
balance 0 — is included literally. -/
theorem c4_slash_never_fails (c : Config) (s : BalState) (who value : Nat) :
    (slash c s who 0 = ((NegativeImbalance.zero, 0), s))
    ∧ (value ≠ 0 → total_balance c s who = 0 →
        slash c s who value = ((NegativeImbalance.zero, value), s))
    ∧ (value ≠ 0 → total_balance c s who ≠ 0 →
        ((slash c s who value).1.1.peek
            = min value
                ((loaded_account s who).free + (loaded_account s who).reserved)
          ∧ (slash c s who value).1.2 = value - (slash c s who value).1.1.peek
          ∧ (slash c s who value).2.accountStore who
              = (post_mutation c
                  { loaded_account s who with
                      free := (loaded_account s who).free
                        - min (loaded_account s who).free value,
                      reserved := (loaded_account s who).reserved
                        - min (loaded_account s who).reserved
                            (value - min (loaded_account s who).free value) }).1))
    ∧ ((slash ⟨1000000, 1⟩
          { accountStore := fun n => if n = 0 then some ⟨50, 0, 0, 0⟩ else none,
            totalIssuance := 1000, dustLog := [] } 0 1000).1
            = ((⟨50⟩ : NegativeImbalance), 950)
        ∧ total_balance ⟨1000000, 1⟩
            (slash ⟨1000000, 1⟩
              { accountStore := fun n => if n = 0 then some ⟨50, 0, 0, 0⟩ else none,
                totalIssuance := 1000, dustLog := [] } 0 1000).2 0 = 0) := by
  refine ⟨?_, ?_, ?_, by decide, by decide⟩
  · unfold slash
    rw [if_pos rfl]
  · intro hv htot
    unfold slash
    rw [if_neg hv, if_pos htot]
  · intro hv htot
    have hcl := slash_closure_attempt0 c value (loaded_account s who)
      (is_new_account s who) s
    have hslash : slash c s who value
        = ((⟨min value
              ((loaded_account s who).free + (loaded_account s who).reserved)⟩,
            value - min value
              ((loaded_account s who).free + (loaded_account s who).reserved)),
           drop_dust_cleaner
             { s with
                accountStore := setKey s.accountStore who
                  (post_mutation c
                    { loaded_account s who with
                        free := (loaded_account s who).free
                          - min (loaded_account s who).free value,
                        reserved := (loaded_account s who).reserved
                          - min (loaded_account s who).reserved
                              (value - min (loaded_account s who).free value) }).1 }
             ((post_mutation c
                { loaded_account s who with
                    free := (loaded_account s who).free
                      - min (loaded_account s who).free value,
                    reserved := (loaded_account s who).reserved
                      - min (loaded_account s who).reserved
                          (value - min (loaded_account s who).free value) }).2.map
               (fun d => (who, d)))) := by
      unfold slash
      rw [if_neg hv, if_neg htot, tma_ok c s who _ _ _ s hcl]
    rw [hslash]
    refine ⟨rfl, rfl, ?_⟩
    rw [drop_dust_cleaner_accountStore]
    simp [setKey]

-- Directed evaluation lemmas for the two transfer closures.

theorem transfer_from_closure_insufficient {c : Config} {toAccount : AccountData}
    {value : Nat} {er : ExistenceRequirement} {source : Nat}
    {fromAccount : AccountData} {b : Bool} {st : BalState}
    (h : fromAccount.free < value) :
    transfer_from_closure c toAccount value er source fromAccount b st
      = (Except.error DispatchError.insufficientBalance, st) := by
  unfold transfer_from_closure
  rw [checkedSub_none h]

theorem transfer_from_closure_overflow {c : Config} {toAccount : AccountData}
    {value : Nat} {er : ExistenceRequirement} {source : Nat}
    {fromAccount : AccountData} {b : Bool} {st : BalState}
    (h1 : value ≤ fromAccount.free)
    (h2 : c.maxBalance < toAccount.free + value) :
    transfer_from_closure c toAccount value er source fromAccount b st
      = (Except.error DispatchError.overflow, st) := by
  unfold transfer_from_closure
  rw [checkedSub_some h1]
  simp only []
  rw [checkedAdd_none h2]

theorem transfer_from_closure_ed {c : Config} {toAccount : AccountData}
    {value : Nat} {er : ExistenceRequirement} {source : Nat}
    {fromAccount : AccountData} {b : Bool} {st : BalState}
    (h1 : value ≤ fromAccount.free)
    (h2 : toAccount.free + value ≤ c.maxBalance)
    (h3 : ({ toAccount with free := toAccount.free + value }).total c.maxBalance
        < c.existentialDeposit) :
    transfer_from_closure c toAccount value er source fromAccount b st
      = (Except.error DispatchError.existentialDeposit, st) := by
  unfold transfer_from_closure
  rw [checkedSub_some h1]
  simp only []
  rw [checkedAdd_some h2]
  simp only []
  rw [if_pos h3]

theorem transfer_from_closure_liquidity {c : Config} {toAccount : AccountData}
    {value : Nat} {er : ExistenceRequirement} {source : Nat}
    {fromAccount : AccountData} {b : Bool} {st : BalState} (hv : value ≠ 0)
    (h1 : value ≤ fromAccount.free)
    (h2 : toAccount.free + value ≤ c.maxBalance)
    (h3 : c.existentialDeposit
        ≤ ({ toAccount with free := toAccount.free + value }).total c.maxBalance)
    (h4 : fromAccount.free - value
        < (loaded_account st source).frozen Reasons.misc) :
    transfer_from_closure c toAccount value er source fromAccount b st
      = (Except.error DispatchError.liquidityRestrictions, st) := by
  unfold transfer_from_closure
  rw [checkedSub_some h1]
  simp only []
  rw [checkedAdd_some h2]
  simp only []
  rw [if_neg (by omega), ensure_can_withdraw_err hv h4]

theorem transfer_from_closure_keepAlive {c : Config} {toAccount : AccountData}
    {value : Nat} {er : ExistenceRequirement} {source : Nat}
    {fromAccount : AccountData} {b : Bool} {st : BalState}
    (h1 : value ≤ fromAccount.free)
    (h2 : toAccount.free + value ≤ c.maxBalance)
    (h3 : c.existentialDeposit
        ≤ ({ toAccount with free := toAccount.free + value }).total c.maxBalance)
    (h4 : (loaded_account st source).frozen Reasons.misc
        ≤ fromAccount.free - value)
    (h5 : ¬(er = ExistenceRequirement.allowDeath
        ∨ c.existentialDeposit
            ≤ ({ fromAccount with free := fromAccount.free - value }).total
                c.maxBalance)) :
    transfer_from_closure c toAccount value er source fromAccount b st
      = (Except.error DispatchError.keepAlive, st) := by
  unfold transfer_from_closure
  rw [checkedSub_some h1]
  simp only []
  rw [checkedAdd_some h2]
  simp only []
  rw [if_neg (by omega), ensure_can_withdraw_ok h4]
  simp only []
  rw [if_neg h5]

theorem transfer_from_closure_ok {c : Config} {toAccount : AccountData}
    {value : Nat} {er : ExistenceRequirement} {source : Nat}
    {fromAccount : AccountData} {b : Bool} {st : BalState}
    (h1 : value ≤ fromAccount.free)
    (h2 : toAccount.free + value ≤ c.maxBalance)
    (h3 : c.existentialDeposit
        ≤ ({ toAccount with free := toAccount.free + value }).total c.maxBalance)
    (h4 : (loaded_account st source).frozen Reasons.misc
        ≤ fromAccount.free - value)
    (h5 : er = ExistenceRequirement.allowDeath
        ∨ c.existentialDeposit
            ≤ ({ fromAccount with free := fromAccount.free - value }).total
                c.maxBalance) :
    transfer_from_closure c toAccount value er source fromAccount b st
      = (Except.ok ({ toAccount with free := toAccount.free + value },
          { fromAccount with free := fromAccount.free - value }), st) := by
  unfold transfer_from_closure
  rw [checkedSub_some h1]
  simp only []
  rw [checkedAdd_some h2]
  simp only []
  rw [if_neg (by omega), ensure_can_withdraw_ok h4]
  simp only []
  rw [if_pos h5]

theorem transfer_to_closure_error (c : Config) (source value : Nat)
    (er : ExistenceRequirement) (toAccount : AccountData) (b : Bool)
    (st : BalState) (e : DispatchError)
    (h : transfer_from_closure c toAccount value er source
          (loaded_account st source) (is_new_account st source) st
        = (Except.error e, st)) :
    transfer_to_closure c source value er toAccount b st
      = (Except.error e, st) := by
  unfold transfer_to_closure
  rw [tmawd_error c st source _ e st h]

theorem transfer_to_closure_ok (c : Config) (source value : Nat)
    (er : ExistenceRequirement) (toAccount : AccountData) (b : Bool)
    (st : BalState) (to1 from1 : AccountData)
    (h : transfer_from_closure c toAccount value er source
          (loaded_account st source) (is_new_account st source) st
        = (Except.ok (to1, from1), st)) :
    transfer_to_closure c source value er toAccount b st
      = (Except.ok ((post_mutation c from1).2.map (fun d => (source, d)), to1),
         { st with
            accountStore :=
              setKey st.accountStore source (post_mutation c from1).1 }) := by
  unfold transfer_to_closure
  rw [tmawd_ok c st source _ to1 from1 st h]

theorem transfer_propagates_from_error (c : Config) (s : BalState)
    (source dest value : Nat) (er : ExistenceRequirement) (e : DispatchError)
    (hguard : ¬(value = 0 ∨ source = dest))
    (h : transfer_from_closure c (loaded_account s dest) value er source
          (loaded_account s source) (is_new_account s source) s
        = (Except.error e, s)) :
    transfer c s source dest value er = (Except.error e, s) := by
  unfold transfer
  rw [if_neg hguard, tmawd_error c s dest _ e s
    (transfer_to_closure_error c source value er (loaded_account s dest)
      (is_new_account s dest) s e h)]

theorem transfer_success_eval (c : Config) (s : BalState)
    (source dest value : Nat) (er : ExistenceRequirement)
    (to1 from1 : AccountData)
    (hguard : ¬(value = 0 ∨ source = dest))
    (h : transfer_from_closure c (loaded_account s dest) value er source
          (loaded_account s source) (is_new_account s source) s
        = (Except.ok (to1, from1), s)) :
    transfer c s source dest value er
      = (Except.ok (),
         drop_dust_cleaner
           (drop_dust_cleaner
             { s with
                accountStore :=
                  setKey (setKey s.accountStore source (post_mutation c from1).1)
                    dest (post_mutation c to1).1 }
             ((post_mutation c from1).2.map (fun d => (source, d))))
           ((post_mutation c to1).2.map (fun d => (dest, d)))) := by
  unfold transfer
  rw [if_neg hguard, tmawd_ok c s dest _
    ((post_mutation c from1).2.map (fun d => (source, d))) to1
    { s with accountStore := setKey s.accountStore source (post_mutation c from1).1 }
    (transfer_to_closure_ok c source value er (loaded_account s dest)
      (is_new_account s dest) s to1 from1 h)]

theorem post_mutation_remove {c : Config} {acct : AccountData}
    (h : acct.total c.maxBalance < c.existentialDeposit) :
    (post_mutation c acct).1 = none := by
  simp only [post_mutation]
  rw [if_pos h]
  by_cases h2 : acct.total c.maxBalance = 0 <;> simp [h2]

theorem free_balance_eq (s : BalState) (who : Nat) :
    free_balance s who = ((s.accountStore who).getD AccountData.default).free :=
  rfl

theorem setKey_same {α : Type} (m : Nat → Option α) (k : Nat) (v : Option α) :
    setKey m k v k = v := by
  simp [setKey]

theorem setKey_other {α : Type} (m : Nat → Option α) (k : Nat) (v : Option α)
    (x : Nat) (h : x ≠ k) : setKey m k v x = m x := by
  simp [setKey, h]

/-- C3 amended: `transfer(source, dest, value, existence_requirement)`
returns success and changes nothing when `value = 0` or `source = dest`;
otherwise it fails with `InsufficientBalance` if the source's free balance is
below `value`, fails with `ExistentialDeposit` if (absent overflow) the
resulting destination total would be below the existential deposit, and fails
with `KeepAlive` if the destination and frozen-floor checks pass but death is
forbidden while the resulting source total would be below the existential
deposit; on success the destination's free balance increases by exactly
`value`, and the source's free balance decreases by exactly `value` whenever
the resulting source total is at least the existential deposit — when death
is allowed and the resulting source total falls below it, the mutation
protocol instead removes the source record entirely (its remainder extracted
as dust), so the stored source free balance reads zero; on any failure the
state is unchanged (the two mutations succeed or fail together). -/
theorem c3_transfer_atomic (c : Config) (s : BalState) (source dest value : Nat)
    (er : ExistenceRequirement) :
    (value = 0 ∨ source = dest →
        transfer c s source dest value er = (Except.ok (), s))
    ∧ (value ≠ 0 → source ≠ dest →
        (loaded_account s source).free < value →
        transfer c s source dest value er
          = (Except.error DispatchError.insufficientBalance, s))
    ∧ (value ≠ 0 → source ≠ dest →
        value ≤ (loaded_account s source).free →
        (loaded_account s dest).free + value ≤ c.maxBalance →
        (AccountData.mk ((loaded_account s dest).free + value)
            (loaded_account s dest).reserved (loaded_account s dest).misc_frozen
            (loaded_account s dest).fee_frozen).total c.maxBalance
          < c.existentialDeposit →
        transfer c s source dest value er
          = (Except.error DispatchError.existentialDeposit, s))
    ∧ (value ≠ 0 → source ≠ dest →
        value ≤ (loaded_account s source).free →
        (loaded_account s dest).free + value ≤ c.maxBalance →
        c.existentialDeposit
          ≤ (AccountData.mk ((loaded_account s dest).free + value)
              (loaded_account s dest).reserved (loaded_account s dest).misc_frozen
              (loaded_account s dest).fee_frozen).total c.maxBalance →
        (loaded_account s source).frozen Reasons.misc
          ≤ (loaded_account s source).free - value →
        ¬(er = ExistenceRequirement.allowDeath
          ∨ c.existentialDeposit
              ≤ (AccountData.mk ((loaded_account s source).free - value)
                  (loaded_account s source).reserved
                  (loaded_account s source).misc_frozen
                  (loaded_account s source).fee_frozen).total c.maxBalance) →
        transfer c s source dest value er
          = (Except.error DispatchError.keepAlive, s))
    ∧ (value ≠ 0 → source ≠ dest →
        value ≤ (loaded_account s source).free →
        (loaded_account s dest).free + value ≤ c.maxBalance →
        c.existentialDeposit
          ≤ (AccountData.mk ((loaded_account s dest).free + value)
              (loaded_account s dest).reserved (loaded_account s dest).misc_frozen
              (loaded_account s dest).fee_frozen).total c.maxBalance →
        (loaded_account s source).frozen Reasons.misc
          ≤ (loaded_account s source).free - value →
        (er = ExistenceRequirement.allowDeath
          ∨ c.existentialDeposit
              ≤ (AccountData.mk ((loaded_account s source).free - value)
                  (loaded_account s source).reserved
                  (loaded_account s source).misc_frozen
                  (loaded_account s source).fee_frozen).total c.maxBalance) →
        ((transfer c s source dest value er).1 = Except.ok ()
          ∧ free_balance (transfer c s source dest value er).2 dest
              = (loaded_account s dest).free + value
          ∧ (c.existentialDeposit
                ≤ (AccountData.mk ((loaded_account s source).free - value)
                    (loaded_account s source).reserved
                    (loaded_account s source).misc_frozen
                    (loaded_account s source).fee_frozen).total c.maxBalance →
              free_balance (transfer c s source dest value er).2 source
                = (loaded_account s source).free - value)
          ∧ ((AccountData.mk ((loaded_account s source).free - value)
                  (loaded_account s source).reserved
                  (loaded_account s source).misc_frozen
                  (loaded_account s source).fee_frozen).total c.maxBalance
                < c.existentialDeposit →
              (transfer c s source dest value er).2.accountStore source = none)))
    ∧ (∀ e, (transfer c s source dest value er).1 = Except.error e →
        (transfer c s source dest value er).2 = s) := by
  refine ⟨?_, ?_, ?_, ?_, ?_, ?_⟩
  · intro h
    unfold transfer
    rw [if_pos h]
  · intro hv hsd h1
    exact transfer_propagates_from_error c s source dest value er _
      (not_or.mpr ⟨hv, hsd⟩) (transfer_from_closure_insufficient h1)
  · intro hv hsd h1 h2 h3
    exact transfer_propagates_from_error c s source dest value er _
      (not_or.mpr ⟨hv, hsd⟩) (transfer_from_closure_ed h1 h2 h3)
  · intro hv hsd h1 h2 h3 h4 h5
    exact transfer_propagates_from_error c s source dest value er _
      (not_or.mpr ⟨hv, hsd⟩) (transfer_from_closure_keepAlive h1 h2 h3 h4 h5)
  · intro hv hsd h1 h2 h3 h4 h5
    have htr := transfer_success_eval c s source dest value er _ _
      (not_or.mpr ⟨hv, hsd⟩) (transfer_from_closure_ok h1 h2 h3 h4 h5)
    rw [htr]
    refine ⟨rfl, ?_, ?_, ?_⟩
    · simp only [free_balance_eq, drop_dust_cleaner_accountStore]
      rw [setKey_same, post_mutation_keep h3]
      rfl
    · intro hke
      simp only [free_balance_eq, drop_dust_cleaner_accountStore]
      rw [setKey_other _ _ _ _ hsd, setKey_same, post_mutation_keep hke]
      rfl
    · intro hlt
      simp only [drop_dust_cleaner_accountStore]
      rw [setKey_other _ _ _ _ hsd, setKey_same]
      exact post_mutation_remove hlt
  · intro e he
    by_cases hgor : value = 0 ∨ source = dest
    · unfold transfer at he
      rw [if_pos hgor] at he
      simp at he
    · push_neg at hgor
      by_cases h1 : (loaded_account s source).free < value
      · rw [transfer_propagates_from_error c s source dest value er _
          (not_or.mpr hgor) (transfer_from_closure_insufficient h1)]
      · by_cases h2 : c.maxBalance < (loaded_account s dest).free + value
        · rw [transfer_propagates_from_error c s source dest value er _
            (not_or.mpr hgor) (transfer_from_closure_overflow (by omega) h2)]
        · by_cases h3 : (AccountData.mk ((loaded_account s dest).free + value)
              (loaded_account s dest).reserved (loaded_account s dest).misc_frozen
              (loaded_account s dest).fee_frozen).total c.maxBalance
              < c.existentialDeposit
          · rw [transfer_propagates_from_error c s source dest value er _
              (not_or.mpr hgor)
              (transfer_from_closure_ed (by omega) (by omega) h3)]
          · by_cases h4 : (loaded_account s source).free - value
                < (loaded_account s source).frozen Reasons.misc
            · rw [transfer_propagates_from_error c s source dest value er _
                (not_or.mpr hgor)
                (transfer_from_closure_liquidity hgor.1 (by omega) (by omega)
                  (by omega) h4)]
            · by_cases h5 : er = ExistenceRequirement.allowDeath
                  ∨ c.existentialDeposit
                      ≤ (AccountData.mk ((loaded_account s source).free - value)
                          (loaded_account s source).reserved
                          (loaded_account s source).misc_frozen
                          (loaded_account s source).fee_frozen).total c.maxBalance
              · exfalso
                rw [transfer_success_eval c s source dest value er _ _
                  (not_or.mpr hgor)
                  (transfer_from_closure_ok (by omega) (by omega) (by omega)
                    (by omega) h5)] at he
                simp at he
              · rw [transfer_propagates_from_error c s source dest value er _
                  (not_or.mpr hgor)
                  (transfer_from_closure_keepAlive (by omega) (by omega)
                    (by omega) (by omega) h5)]

/-- C3 counterexample to the original claim: with existential deposit 5, a
transfer of 7 from an account with free 10 under `AllowDeath` succeeds, but
the source's resulting total 3 is below the deposit, so the mutation protocol
removes the source record as dust and the stored source free balance is 0,
not `10 - 7 = 3` — the claim's "on success source.free decreases by exactly
value" fails. -/
theorem c3_transfer_counterexample :
    (transfer ⟨1000000, 5⟩
      { accountStore := fun n =>
          if n = 0 then some ⟨10, 0, 0, 0⟩
          else if n = 1 then some ⟨10, 0, 0, 0⟩ else none,
        totalIssuance := 100, dustLog := [] } 0 1 7
      ExistenceRequirement.allowDeath).1 = Except.ok ()
    ∧ free_balance (transfer ⟨1000000, 5⟩
      { accountStore := fun n =>
          if n = 0 then some ⟨10, 0, 0, 0⟩
          else if n = 1 then some ⟨10, 0, 0, 0⟩ else none,
        totalIssuance := 100, dustLog := [] } 0 1 7
      ExistenceRequirement.allowDeath).2 0 = 0
    ∧ (10 : Nat) - 7 ≠ 0 := by
  refine ⟨rfl, by decide, by decide⟩

/-- Witness for the amended C3: the spec scenario — existential deposit 1,
two accounts with free 1000 each, transfer of 100 under `KeepAlive` —
succeeds with the source at 900 and the destination at 1100. -/
theorem c3_transfer_atomic_witness :
    (transfer ⟨10000000, 1⟩
      { accountStore := fun n =>
          if n = 0 then some ⟨1000, 0, 0, 0⟩
          else if n = 1 then some ⟨1000, 0, 0, 0⟩ else none,
        totalIssuance := 2000, dustLog := [] } 0 1 100
      ExistenceRequirement.keepAlive).1 = Except.ok ()
    ∧ free_balance (transfer ⟨10000000, 1⟩
      { accountStore := fun n =>
          if n = 0 then some ⟨1000, 0, 0, 0⟩
          else if n = 1 then some ⟨1000, 0, 0, 0⟩ else none,
        totalIssuance := 2000, dustLog := [] } 0 1 100
      ExistenceRequirement.keepAlive).2 1 = 1100
    ∧ free_balance (transfer ⟨10000000, 1⟩
      { accountStore := fun n =>
          if n = 0 then some ⟨1000, 0, 0, 0⟩
          else if n = 1 then some ⟨1000, 0, 0, 0⟩ else none,
        totalIssuance := 2000, dustLog := [] } 0 1 100
      ExistenceRequirement.keepAlive).2 0 = 900 := by
  have h := (c3_transfer_atomic ⟨10000000, 1⟩
    { accountStore := fun n =>
        if n = 0 then some ⟨1000, 0, 0, 0⟩
        else if n = 1 then some ⟨1000, 0, 0, 0⟩ else none,
      totalIssuance := 2000, dustLog := [] } 0 1 100
    ExistenceRequirement.keepAlive).2.2.2.2.1
    (by decide) (by decide) (by decide) (by decide) (by decide) (by decide)
    (Or.inr (by decide))
  exact ⟨h.1, h.2.1.trans (by decide), (h.2.2.1 (by decide)).trans (by decide)⟩

/-- Witness for C4: slashing 60 from an account with free 30 and reserved 40
actually slashes 60. -/
theorem c4_slash_never_fails_witness :
    (slash ⟨1000000, 1⟩
      { accountStore := fun n => if n = 0 then some ⟨30, 40, 0, 0⟩ else none,
        totalIssuance := 1000, dustLog := [] } 0 60).1.1.peek = 60 := by
  have h := (c4_slash_never_fails ⟨1000000, 1⟩
    { accountStore := fun n => if n = 0 then some ⟨30, 40, 0, 0⟩ else none,
      totalIssuance := 1000, dustLog := [] } 0 60).2.2.1 (by decide) (by decide)
  exact h.1.trans (by decide)
